import Mathlib

/-!
# Shallow embedding of wxkbd (src/wxkbd.c)

wxkbd is a daemon that re-applies keyboard key-repeat rate and delay whenever
a new (master or slave) input device is added to the X server.  This file
embeds the program's pure logic and its interaction traces in Lean:

* protocol constants are taken verbatim from the xcb headers the program
  includes (`xcb.h`, `xcb_event.h`, `xinput.h`, `xkb.h`);
* `is_hierarchy_event` is a direct translation of the C predicate;
* `set_repeat_rate_and_delay` is translated to a function producing the list
  of observable actions (the set-controls request, the stderr diagnostic) plus
  its boolean return value; the server's answer to the checked request is an
  explicit input (`Option Nat`: `none` = success, `some code` = protocol
  error `code`);
* `str_to_uint16` and the option-processing loop of `main` are translated at
  the integer level (`strtol`'s digit-string decoding is abstracted: an
  argument is represented by the integer it denotes, with `strtol`'s
  `LONG_MIN`/`LONG_MAX` clamping and `ERANGE` signalling made explicit);
* `main`'s startup sequence and event loop are translated to `runDaemon`, a
  function from an environment (connection state, extension presence, reply
  of the use-extension handshake, per-request server answers, and the finite
  stream of inbound events ended by `xcb_wait_for_event` returning NULL) to
  the trace of actions performed and the process exit code.
-/

namespace Wxkbd

/-! ## Protocol constants (from the xcb headers) -/

/-- Constant `XCB_GE_GENERIC` (xproto): response type tag of generic extension events. -/
def XCB_GE_GENERIC : Nat := 35

/-- Constant `XCB_EVENT_RESPONSE_TYPE_MASK` (xcb_event.h): `0x7f`. -/
def XCB_EVENT_RESPONSE_TYPE_MASK : Nat := 127

/-- Constant `XCB_INPUT_HIERARCHY` (xinput.h): event sub-type of hierarchy-changed. -/
def XCB_INPUT_HIERARCHY : Nat := 11

/-- Constant `XCB_INPUT_HIERARCHY_MASK_MASTER_ADDED` (xinput.h). -/
def XCB_INPUT_HIERARCHY_MASK_MASTER_ADDED : Nat := 1

/-- Constant `XCB_INPUT_HIERARCHY_MASK_MASTER_REMOVED` (xinput.h). -/
def XCB_INPUT_HIERARCHY_MASK_MASTER_REMOVED : Nat := 2

/-- Constant `XCB_INPUT_HIERARCHY_MASK_SLAVE_ADDED` (xinput.h). -/
def XCB_INPUT_HIERARCHY_MASK_SLAVE_ADDED : Nat := 4

/-- Constant `XCB_INPUT_HIERARCHY_MASK_SLAVE_REMOVED` (xinput.h). -/
def XCB_INPUT_HIERARCHY_MASK_SLAVE_REMOVED : Nat := 8

/-- Constant `XCB_INPUT_HIERARCHY_MASK_DEVICE_ENABLED` (xinput.h). -/
def XCB_INPUT_HIERARCHY_MASK_DEVICE_ENABLED : Nat := 64

/-- Constant `XCB_INPUT_HIERARCHY_MASK_DEVICE_DISABLED` (xinput.h). -/
def XCB_INPUT_HIERARCHY_MASK_DEVICE_DISABLED : Nat := 128

/-- Constant `XCB_INPUT_DEVICE_ALL` (xinput.h): wildcard device selector. -/
def XCB_INPUT_DEVICE_ALL : Nat := 0

/-- Constant `XCB_INPUT_XI_EVENT_MASK_HIERARCHY` (xinput.h): `1 <<< 11`. -/
def XCB_INPUT_XI_EVENT_MASK_HIERARCHY : Nat := 2048

/-- Constant `XCB_XKB_ID_USE_CORE_KBD` (xkb.h): the logical core-keyboard device spec. -/
def XCB_XKB_ID_USE_CORE_KBD : Nat := 256

/-- Constant `XCB_XKB_BOOL_CTRL_REPEAT_KEYS` (xkb.h): the repeat-keys boolean control bit. -/
def XCB_XKB_BOOL_CTRL_REPEAT_KEYS : Nat := 1

/-- Constant `XCB_XKB_MAJOR_VERSION` (xkb.h). -/
def XCB_XKB_MAJOR_VERSION : Nat := 1

/-- Constant `XCB_XKB_MINOR_VERSION` (xkb.h). -/
def XCB_XKB_MINOR_VERSION : Nat := 0

/-- Constant `EXIT_SUCCESS` (stdlib.h). -/
def EXIT_SUCCESS : Nat := 0

/-- Constant `EXIT_FAILURE` (stdlib.h). -/
def EXIT_FAILURE : Nat := 1

/-- Constant `UINT16_MAX` (stdint.h). -/
def UINT16_MAX : Int := 65535

/-- Constant `LONG_MAX` (limits.h, 64-bit target). -/
def LONG_MAX : Int := 9223372036854775807

/-- Constant `LONG_MIN` (limits.h, 64-bit target). -/
def LONG_MIN : Int := -9223372036854775808

/-! ## Events and extension descriptors -/

/-- The fields of `xcb_query_extension_reply_t` the program consults:
`present` and `major_opcode`. -/
structure xcb_query_extension_reply_t where
  present : Bool
  major_opcode : Nat
deriving DecidableEq

/-- An inbound event.  The C code reinterprets one raw buffer successively as
`xcb_generic_event_t`, `xcb_ge_generic_event_t` and
`xcb_input_hierarchy_event_t`; the model flattens the three views into one
record holding every field the program reads: `response_type` (generic
header), `extension` and `event_type` (generic-extension header), and
`flags` (hierarchy event body). -/
structure xcb_generic_event_t where
  response_type : Nat
  extension : Nat
  event_type : Nat
  flags : Nat
deriving DecidableEq

/-- Macro `XCB_EVENT_RESPONSE_TYPE(e)` (xcb_event.h): the response type with the
"sent by SendEvent" bit `0x80` masked off. -/
def XCB_EVENT_RESPONSE_TYPE (e : xcb_generic_event_t) : Nat :=
  e.response_type &&& XCB_EVENT_RESPONSE_TYPE_MASK

/-- Translation of `is_hierarchy_event` (src/wxkbd.c lines 39-58): true iff
the event is a generic extension event, belongs to the XInput extension,
has sub-type hierarchy-changed, and its flags intersect
{master-added, slave-added}. -/
def is_hierarchy_event (event : xcb_generic_event_t)
    (xinput_info : xcb_query_extension_reply_t) : Bool :=
  if XCB_EVENT_RESPONSE_TYPE event ≠ XCB_GE_GENERIC then
    false
  else if event.extension ≠ xinput_info.major_opcode
          || event.event_type ≠ XCB_INPUT_HIERARCHY then
    false
  else if event.flags &&& (XCB_INPUT_HIERARCHY_MASK_MASTER_ADDED
            ||| XCB_INPUT_HIERARCHY_MASK_SLAVE_ADDED) = 0 then
    false
  else
    true

/-! ## The set-controls request and the applicator -/

/-- The arguments of `xcb_xkb_set_controls_checked` (xkb.h), in declaration
order, excluding the connection.  `perKeyRepeat` is the 32-byte per-key
repeat bitmap. -/
structure xcb_xkb_set_controls_request_t where
  deviceSpec : Nat
  affectInternalRealMods : Nat
  internalRealMods : Nat
  affectIgnoreLockRealMods : Nat
  ignoreLockRealMods : Nat
  affectInternalVirtualMods : Nat
  internalVirtualMods : Nat
  affectIgnoreLockVirtualMods : Nat
  ignoreLockVirtualMods : Nat
  mouseKeysDfltBtn : Nat
  groupsWrap : Nat
  accessXOptions : Nat
  affectEnabledControls : Nat
  enabledControls : Nat
  changeControls : Nat
  repeatDelay : Nat
  repeatInterval : Nat
  slowKeysDelay : Nat
  debounceDelay : Nat
  mouseKeysDelay : Nat
  mouseKeysInterval : Nat
  mouseKeysTimeToMax : Nat
  mouseKeysMaxSpeed : Nat
  mouseKeysCurve : Nat
  accessXTimeout : Nat
  accessXTimeoutMask : Nat
  accessXTimeoutValues : Nat
  accessXTimeoutOptionsMask : Nat
  accessXTimeoutOptionsValues : Nat
  perKeyRepeat : List Nat
deriving DecidableEq

/-- The request `set_repeat_rate_and_delay` builds (src/wxkbd.c lines 83-87):
core keyboard device spec, every field zero except the change-controls bit
(repeat keys), the delay, the interval, and the all-zero per-key bitmap. -/
def mk_set_controls_request (delay repeat_interval : Nat) :
    xcb_xkb_set_controls_request_t where
  deviceSpec := XCB_XKB_ID_USE_CORE_KBD
  affectInternalRealMods := 0
  internalRealMods := 0
  affectIgnoreLockRealMods := 0
  ignoreLockRealMods := 0
  affectInternalVirtualMods := 0
  internalVirtualMods := 0
  affectIgnoreLockVirtualMods := 0
  ignoreLockVirtualMods := 0
  mouseKeysDfltBtn := 0
  groupsWrap := 0
  accessXOptions := 0
  affectEnabledControls := 0
  enabledControls := 0
  changeControls := XCB_XKB_BOOL_CTRL_REPEAT_KEYS
  repeatDelay := delay
  repeatInterval := repeat_interval
  slowKeysDelay := 0
  debounceDelay := 0
  mouseKeysDelay := 0
  mouseKeysInterval := 0
  mouseKeysTimeToMax := 0
  mouseKeysMaxSpeed := 0
  mouseKeysCurve := 0
  accessXTimeout := 0
  accessXTimeoutMask := 0
  accessXTimeoutValues := 0
  accessXTimeoutOptionsMask := 0
  accessXTimeoutOptionsValues := 0
  perKeyRepeat := List.replicate 32 0

/-- An observable action of the program on its environment.  `applyCall`
marks an invocation of `set_repeat_rate_and_delay` (a call site in `main`);
`setControls` is the checked set-controls request; `errPrint` is the
`fprintf(stderr, "Cannot set keyboard repeat rate and delay: %d\n", code)`
diagnostic; `fatalMsg` is a diagnostic followed by `exit(EXIT_FAILURE)`
from `err()`. -/
inductive Action where
  | connect
  | queryExtension (ext : Nat)
  | selectEvents (deviceid mask_len mask : Nat)
  | flush
  | useExtension (major minor : Nat)
  | applyCall (rate delay : Nat)
  | setControls (req : xcb_xkb_set_controls_request_t)
  | errPrint (code : Nat)
  | fatalMsg
  | waitEvent
  | disconnect
deriving DecidableEq

/-- Translation of `set_repeat_rate_and_delay` (src/wxkbd.c lines 60-95).
`check_result` is the reply `xcb_request_check` delivers for the checked
request (`none` = success, `some code` = protocol error).  The result is the
list of actions performed together with the C function's boolean return
value.  Out-of-range rates are rejected on the guard before the division
`1000 / rate` and before any request is issued. -/
def set_repeat_rate_and_delay (check_result : Option Nat)
    (rate delay : Nat) : List Action × Bool :=
  if rate > 1000 || rate < 1 then
    ([Action.applyCall rate delay], false)
  else
    let repeat_interval := 1000 / rate
    let req := mk_set_controls_request delay repeat_interval
    match check_result with
    | some code =>
        ([Action.applyCall rate delay, Action.setControls req,
          Action.errPrint code], false)
    | none =>
        ([Action.applyCall rate delay, Action.setControls req], true)

/-- The first set-controls request in a trace, if any. -/
def first_set_controls : List Action → Option xcb_xkb_set_controls_request_t
  | [] => none
  | Action.setControls req :: _ => some req
  | _ :: rest => first_set_controls rest

/-! ## CLI argument parsing -/

/-- Translation of `str_to_uint16` (src/wxkbd.c lines 97-114) at the integer
level.  `strtol`'s decoding of the digit string is abstracted: the argument
string is represented by the integer value `n` it denotes; `strtol` clamps
it to `LONG_MIN`/`LONG_MAX` and signals `ERANGE` exactly when it lies
outside the `long` range, which is what the first clause of the C guard
tests.  (The purely string-formatted failure cases of the C guard,
`end == str` and `*end != 0`, have no integer counterpart and are outside
this model.)  Returns `none` when the C function returns `false`, otherwise
the converted value. -/
def str_to_uint16 (n : Int) : Option Nat :=
  let conversion : Int :=
    if n > LONG_MAX then LONG_MAX else if n < LONG_MIN then LONG_MIN else n
  let erange : Bool := n > LONG_MAX || n < LONG_MIN
  if ((conversion = LONG_MIN ∨ conversion = LONG_MAX) ∧ erange = true)
      ∨ conversion < 0 ∨ conversion > UINT16_MAX then
    none
  else
    some conversion.toNat

/-- Outcome of processing one `-r`/`-d` option argument in `main`'s getopt
loop: parsed value, or `usage(argv[0], EXIT_FAILURE)` (usage text, exit),
or `err(...)` (range error message, exit). -/
inductive ArgOutcome where
  | ok (v : Nat)
  | usage (exit_code : Nat)
  | range_error (exit_code : Nat)
deriving DecidableEq

/-- Translation of the `case r` body of `main`'s option loop
(src/wxkbd.c lines 164-171): parse failure prints usage and exits 1;
a parsed rate outside [1, 1000] prints an error and exits 1. -/
def parse_rate_arg (n : Int) : ArgOutcome :=
  match str_to_uint16 n with
  | none => ArgOutcome.usage EXIT_FAILURE
  | some rate =>
      if rate > 1000 || rate < 1 then ArgOutcome.range_error EXIT_FAILURE
      else ArgOutcome.ok rate

/-- Translation of the `case d` body of `main`'s option loop
(src/wxkbd.c lines 172-179): parse failure prints usage and exits 1;
a parsed delay below 1 prints an error and exits 1. -/
def parse_delay_arg (n : Int) : ArgOutcome :=
  match str_to_uint16 n with
  | none => ArgOutcome.usage EXIT_FAILURE
  | some delay =>
      if delay < 1 then ArgOutcome.range_error EXIT_FAILURE
      else ArgOutcome.ok delay

/-- One option as returned by `getopt(argc, argv, "hVr:d:")`: the four
recognised options (with the integer denoted by `optarg` for `-r`/`-d`),
or `unknown c` for getopt's return value for an option character `c` not in
the option string. -/
inductive CliOpt where
  | h
  | V
  | r (optarg : Int)
  | d (optarg : Int)
  | unknown (c : Nat)
deriving DecidableEq

/-- Outcome of the whole option loop: the process exited during parsing, or
parsing fell through to the connection phase with these rate and delay. -/
inductive CliResult where
  | exited (code : Nat)
  | proceed (rate delay : Nat)
deriving DecidableEq

/-- Translation of `main`'s getopt loop (src/wxkbd.c lines 156-181).
`-h` runs `usage(argv[0], EXIT_SUCCESS)`; `-V` runs `version()` (exit 0);
`-r`/`-d` validate and update the running rate/delay; an option character
matching no case of the switch (getopt's unknown-option return) falls
through the switch and the loop continues. -/
def getopt_loop : List CliOpt → Nat → Nat → CliResult
  | [], rate, delay => CliResult.proceed rate delay
  | CliOpt.h :: _, _, _ => CliResult.exited EXIT_SUCCESS
  | CliOpt.V :: _, _, _ => CliResult.exited EXIT_SUCCESS
  | CliOpt.r n :: rest, _rate, delay =>
      match parse_rate_arg n with
      | ArgOutcome.ok v => getopt_loop rest v delay
      | ArgOutcome.usage c => CliResult.exited c
      | ArgOutcome.range_error c => CliResult.exited c
  | CliOpt.d n :: rest, rate, _delay =>
      match parse_delay_arg n with
      | ArgOutcome.ok v => getopt_loop rest rate v
      | ArgOutcome.usage c => CliResult.exited c
      | ArgOutcome.range_error c => CliResult.exited c
  | CliOpt.unknown _ :: rest, rate, delay => getopt_loop rest rate delay

/-- Constant `default_rate` (src/wxkbd.c line 24). -/
def default_rate : Nat := 70

/-- Constant `default_delay` (src/wxkbd.c line 25). -/
def default_delay : Nat := 250

/-! ## The daemon: startup sequence and main loop -/

/-- The environment a run of the daemon interacts with: whether
`xcb_connect` yields a connection in error state, the two extension query
replies, whether a screen can be acquired, the reply of the XKB
use-extension handshake (`none` = success, `some code` = protocol error),
the server's answer to the k-th checked set-controls request, and the
finite stream of inbound events delivered by `xcb_wait_for_event` before it
returns NULL. -/
structure Env where
  connect_has_error : Bool
  xinput_present : Bool
  xinput_major_opcode : Nat
  xkb_present : Bool
  screen_ok : Bool
  use_extension_error : Option Nat
  set_controls_error : Nat → Option Nat
  events : List xcb_generic_event_t

/-- The XInput extension descriptor `main` obtains from
`xcb_get_extension_data(connection, &xcb_input_id)`. -/
def xinput_reply (env : Env) : xcb_query_extension_reply_t :=
  { present := env.xinput_present, major_opcode := env.xinput_major_opcode }

/-- Translation of `main`'s event loop (src/wxkbd.c lines 270-287).  Each
iteration blocks in `xcb_wait_for_event` (one `waitEvent` action); a
delivered event is classified and, when it qualifies, the applicator runs
with the configured rate and delay (`k` numbers the applicator invocations,
indexing the server's answers); the loop ends when the wait returns NULL,
which is the `waitEvent` action after the last delivered event. -/
def mainLoop (xinput_info : xcb_query_extension_reply_t)
    (set_controls_error : Nat → Option Nat) (rate delay k : Nat) :
    List xcb_generic_event_t → List Action
  | [] => [Action.waitEvent]
  | e :: rest =>
      if is_hierarchy_event e xinput_info then
        Action.waitEvent ::
          ((set_repeat_rate_and_delay (set_controls_error k) rate delay).1
            ++ mainLoop xinput_info set_controls_error rate delay (k + 1) rest)
      else
        Action.waitEvent ::
          mainLoop xinput_info set_controls_error rate delay k rest

/-- The startup actions of a run that passes every startup check
(src/wxkbd.c lines 183-265): connect, query XInput, query XKB, select
hierarchy events on the root window for all devices, flush, and the XKB
use-extension handshake. -/
def startup_actions : List Action :=
  [Action.connect, Action.queryExtension 0, Action.queryExtension 1,
   Action.selectEvents XCB_INPUT_DEVICE_ALL 1 XCB_INPUT_XI_EVENT_MASK_HIERARCHY,
   Action.flush,
   Action.useExtension XCB_XKB_MAJOR_VERSION XCB_XKB_MINOR_VERSION]

/-- Translation of `main` after option processing (src/wxkbd.c lines
183-292): the startup sequence with its fatal `err()` exits, the one
unconditional applicator invocation, the event loop, and the final flush,
disconnect and `return EXIT_SUCCESS`.  Produces the trace of actions and
the process exit code. -/
def runDaemon (rate delay : Nat) (env : Env) : List Action × Nat :=
  if env.connect_has_error then
    ([Action.connect, Action.fatalMsg], EXIT_FAILURE)
  else if env.xinput_present = false then
    ([Action.connect, Action.queryExtension 0, Action.fatalMsg], EXIT_FAILURE)
  else if env.xkb_present = false then
    ([Action.connect, Action.queryExtension 0, Action.queryExtension 1,
      Action.fatalMsg], EXIT_FAILURE)
  else if env.screen_ok = false then
    ([Action.connect, Action.queryExtension 0, Action.queryExtension 1,
      Action.fatalMsg], EXIT_FAILURE)
  else
    match env.use_extension_error with
    | some _ => (startup_actions ++ [Action.fatalMsg], EXIT_FAILURE)
    | none =>
        (startup_actions
          ++ (set_repeat_rate_and_delay (env.set_controls_error 0) rate delay).1
          ++ mainLoop (xinput_reply env) env.set_controls_error rate delay 1
              env.events
          ++ [Action.flush, Action.disconnect], EXIT_SUCCESS)

/-- Whole program: `main` = option loop followed by the daemon body. -/
def main (opts : List CliOpt) (env : Env) : List Action × Nat :=
  match getopt_loop opts default_rate default_delay with
  | CliResult.exited code => ([], code)
  | CliResult.proceed rate delay => runDaemon rate delay env

/-- A run whose startup checks all pass (it reaches the event loop). -/
def startup_ok (env : Env) : Prop :=
  env.connect_has_error = false ∧ env.xinput_present = true ∧
  env.xkb_present = true ∧ env.screen_ok = true ∧
  env.use_extension_error = none

/-- Recogniser for applicator invocations in a trace. -/
def isApplyCall : Action → Bool
  | Action.applyCall _ _ => true
  | _ => false

/-- Recogniser for set-controls requests in a trace. -/
def isSetControls : Action → Bool
  | Action.setControls _ => true
  | _ => false

/-- Recogniser for the blocking event wait in a trace. -/
def isWaitEvent : Action → Bool
  | Action.waitEvent => true
  | _ => false

/-! ## Helper lemmas -/

/-- A bitwise or of naturals is zero iff both operands are. -/
lemma lor_eq_zero_iff (x y : Nat) : x ||| y = 0 ↔ x = 0 ∧ y = 0 := by
  constructor
  · intro h
    constructor
    · refine Nat.zero_of_testBit_eq_false fun i => ?_
      have hbit := congrArg (fun n => Nat.testBit n i) h
      simp [Nat.testBit_lor] at hbit
      exact hbit.1
    · refine Nat.zero_of_testBit_eq_false fun i => ?_
      have hbit := congrArg (fun n => Nat.testBit n i) h
      simp [Nat.testBit_lor] at hbit
      exact hbit.2
  · rintro ⟨rfl, rfl⟩; rfl

/-- Testing a combined mask is testing each mask separately. -/
lemma land_mask_or (x a b : Nat) :
    x &&& (a ||| b) = 0 ↔ (x &&& a = 0 ∧ x &&& b = 0) := by
  rw [Nat.and_or_distrib_left, lor_eq_zero_iff]

/-- The applicator trace always begins with the invocation marker. -/
lemma apply_trace_head (check_result : Option Nat) (rate delay : Nat) :
    ∃ t, (set_repeat_rate_and_delay check_result rate delay).1
      = Action.applyCall rate delay :: t := by
  unfold set_repeat_rate_and_delay
  split
  · exact ⟨[], rfl⟩
  · cases check_result <;> simp

/-- The applicator never waits for events. -/
lemma apply_trace_no_wait (check_result : Option Nat) (rate delay : Nat) :
    ∀ a ∈ (set_repeat_rate_and_delay check_result rate delay).1,
      isWaitEvent a = false := by
  unfold set_repeat_rate_and_delay
  split
  · simp [isWaitEvent]
  · cases check_result <;> simp [isWaitEvent]

/-- Each applicator run carries exactly one invocation marker. -/
lemma apply_trace_applyCall_count (check_result : Option Nat) (rate delay : Nat) :
    ((set_repeat_rate_and_delay check_result rate delay).1).countP isApplyCall
      = 1 := by
  unfold set_repeat_rate_and_delay
  split
  · simp [List.countP, List.countP.go, isApplyCall]
  · cases check_result <;> simp [List.countP, List.countP.go, isApplyCall]

/-! ## C1: the event classifier -/

/-- C1: `is_hierarchy_event` is a total boolean predicate that holds iff the
event's response-type tag (SendEvent bit masked off) is the generic
extension-event tag, its extension opcode equals the XInput extension's
major opcode, its sub-type is hierarchy-changed, and its change-flags have
at least one of the master-added or slave-added bits set; it is false for
every other tag, opcode, sub-type or flag combination. -/
theorem is_hierarchy_event_spec (e : xcb_generic_event_t)
    (info : xcb_query_extension_reply_t) :
    is_hierarchy_event e info = true ↔
      (XCB_EVENT_RESPONSE_TYPE e = XCB_GE_GENERIC ∧
       e.extension = info.major_opcode ∧
       e.event_type = XCB_INPUT_HIERARCHY ∧
       (e.flags &&& XCB_INPUT_HIERARCHY_MASK_MASTER_ADDED ≠ 0 ∨
        e.flags &&& XCB_INPUT_HIERARCHY_MASK_SLAVE_ADDED ≠ 0)) := by
  have hmask := land_mask_or e.flags XCB_INPUT_HIERARCHY_MASK_MASTER_ADDED
    XCB_INPUT_HIERARCHY_MASK_SLAVE_ADDED
  unfold is_hierarchy_event
  split_ifs with h1 h2 h3 <;> simp_all <;> tauto

/-- Concrete instance of C1: an event with the SendEvent bit set on the
generic tag, the right opcode, the hierarchy sub-type and the slave-added
flag is accepted. -/
theorem is_hierarchy_event_spec_witness :
    is_hierarchy_event
      { response_type := 163, extension := 2, event_type := 11, flags := 4 }
      { present := true, major_opcode := 2 } = true :=
  (is_hierarchy_event_spec _ _).mpr (by decide)

/-! ## C2: rate-to-interval conversion -/

/-- The repeat interval carried by the set-controls request the applicator
issues, if it issues one. -/
def applied_interval (check_result : Option Nat) (rate delay : Nat) :
    Option Nat :=
  Option.map xcb_xkb_set_controls_request_t.repeatInterval
    (first_set_controls (set_repeat_rate_and_delay check_result rate delay).1)

/-- C2: for every rate in [1, 1000] the applicator converts the rate to the
wire interval by truncating integer division, `interval = 1000 / rate`; in
particular 70 maps to 14, 1 to 1000, and 1000 to 1. -/
theorem repeat_interval_conversion (rate delay : Nat) (check_result : Option Nat)
    (h1 : 1 ≤ rate) (h2 : rate ≤ 1000) :
    applied_interval check_result rate delay = some (1000 / rate) ∧
    applied_interval none 70 250 = some 14 ∧
    applied_interval none 1 250 = some 1000 ∧
    applied_interval none 1000 250 = some 1 := by
  refine ⟨?_, rfl, rfl, rfl⟩
  have hguard : ¬(rate > 1000 || rate < 1) = true := by
    simp only [Bool.or_eq_true, decide_eq_true_eq]
    omega
  unfold applied_interval set_repeat_rate_and_delay
  rw [if_neg hguard]
  cases check_result <;> simp [first_set_controls, mk_set_controls_request]

/-- Concrete instance of C2 at rate 70, delay 250. -/
theorem repeat_interval_conversion_witness :
    applied_interval none 70 250 = some (1000 / 70) ∧
    applied_interval none 70 250 = some 14 ∧
    applied_interval none 1 250 = some 1000 ∧
    applied_interval none 1000 250 = some 1 :=
  repeat_interval_conversion 70 250 none (by decide) (by decide)

/-! ## C3: out-of-range rates rejected before any request -/

/-- C3: for every rate outside [1, 1000] the applicator fails on the guard:
its whole trace is the bare invocation marker (no set-controls request, no
diagnostic — the session is untouched) and it returns `false`. -/
theorem out_of_range_rate_rejected (check_result : Option Nat)
    (rate delay : Nat) (h : rate < 1 ∨ rate > 1000) :
    set_repeat_rate_and_delay check_result rate delay
        = ([Action.applyCall rate delay], false) ∧
    first_set_controls (set_repeat_rate_and_delay check_result rate delay).1
        = none := by
  have hguard : (rate > 1000 || rate < 1) = true := by
    simp only [Bool.or_eq_true, decide_eq_true_eq]
    omega
  unfold set_repeat_rate_and_delay
  rw [if_pos hguard]
  exact ⟨rfl, rfl⟩

/-- Concrete instance of C3 at rate 1001. -/
theorem out_of_range_rate_rejected_witness :
    set_repeat_rate_and_delay none 1001 250
        = ([Action.applyCall 1001 250], false) ∧
    first_set_controls (set_repeat_rate_and_delay none 1001 250).1 = none :=
  out_of_range_rate_rejected none 1001 250 (Or.inr (by decide))

/-! ## C9: the division 1000 / rate is guarded -/

/-- C9: the guard makes `rate < 1` (in particular `rate = 0`) return `false`
before the division is reached, so a set-controls request — the only
consumer of the quotient — is only ever built with `rate ≥ 1`. -/
theorem division_by_zero_guarded (check_result : Option Nat)
    (rate delay : Nat) :
    (rate < 1 → set_repeat_rate_and_delay check_result rate delay
        = ([Action.applyCall rate delay], false)) ∧
    (∀ req, Action.setControls req
        ∈ (set_repeat_rate_and_delay check_result rate delay).1 →
      1 ≤ rate ∧ req.repeatInterval = 1000 / rate) := by
  constructor
  · intro h
    exact (out_of_range_rate_rejected check_result rate delay (Or.inl h)).1
  · intro req hmem
    unfold set_repeat_rate_and_delay at hmem
    by_cases hguard : (rate > 1000 || rate < 1) = true
    · rw [if_pos hguard] at hmem
      simp at hmem
    · rw [if_neg hguard] at hmem
      simp only [Bool.or_eq_true, decide_eq_true_eq, not_or, not_lt] at hguard
      cases check_result <;> simp at hmem <;>
        exact ⟨by omega, by rw [hmem]; rfl⟩

/-- Concrete instance of C9 at rate 0: the guard fires and no request is
built. -/
theorem division_by_zero_guarded_witness :
    set_repeat_rate_and_delay none 0 250 = ([Action.applyCall 0 250], false) :=
  (division_by_zero_guarded none 0 250).1 (by decide)

/-! ## C8: CLI argument validation -/

/-- The integer-level parse fails exactly outside [0, 65535]: negative
values fail the sign check, values above `UINT16_MAX` fail the ceiling
check, and values outside the `long` range are clamped with `ERANGE` and
fail the first clause. -/
lemma str_to_uint16_eq_none_iff (n : Int) :
    str_to_uint16 n = none ↔ (n < 0 ∨ 65535 < n) := by
  unfold str_to_uint16 LONG_MAX LONG_MIN UINT16_MAX
  split_ifs with h <;> simp_all <;> omega

/-- The integer-level parse succeeds exactly on [0, 65535], returning the
value unchanged. -/
lemma str_to_uint16_eq_some_iff (n : Int) (v : Nat) :
    str_to_uint16 n = some v ↔ (0 ≤ n ∧ n ≤ 65535 ∧ (v : Int) = n) := by
  unfold str_to_uint16 LONG_MAX LONG_MIN UINT16_MAX
  split_ifs with h <;> simp_all <;> omega

/-- C8: over the integers, the `-r` argument is accepted iff it lies in
[1, 1000] and the `-d` argument iff it lies in [1, 65535] (the unsigned
16-bit bound capping both); a value failing the unsigned-16-bit parse makes
the option loop print the usage text and exit 1, while a value that parses
but is out of range makes it print an error message and exit 1. -/
theorem cli_argument_validation (n : Int) :
    (parse_rate_arg n = ArgOutcome.ok n.toNat ↔ 1 ≤ n ∧ n ≤ 1000) ∧
    (parse_delay_arg n = ArgOutcome.ok n.toNat ↔ 1 ≤ n ∧ n ≤ 65535) ∧
    (str_to_uint16 n = none ↔ n < 0 ∨ 65535 < n) ∧
    (str_to_uint16 n = none →
      parse_rate_arg n = ArgOutcome.usage EXIT_FAILURE ∧
      parse_delay_arg n = ArgOutcome.usage EXIT_FAILURE) ∧
    (∀ v, str_to_uint16 n = some v → (v < 1 ∨ 1000 < v) →
      parse_rate_arg n = ArgOutcome.range_error EXIT_FAILURE) ∧
    (∀ v, str_to_uint16 n = some v → v < 1 →
      parse_delay_arg n = ArgOutcome.range_error EXIT_FAILURE) := by
  refine ⟨?_, ?_, str_to_uint16_eq_none_iff n, ?_, ?_, ?_⟩
  · constructor
    · intro h
      cases hs : str_to_uint16 n with
      | none => simp [parse_rate_arg, hs] at h
      | some v =>
          simp only [parse_rate_arg, hs] at h
          rw [str_to_uint16_eq_some_iff] at hs
          split_ifs at h with hg
          simp only [Bool.or_eq_true, decide_eq_true_eq, not_or, not_lt] at hg
          omega
    · intro h
      have hs : str_to_uint16 n = some n.toNat := by
        rw [str_to_uint16_eq_some_iff]; omega
      simp only [parse_rate_arg, hs]
      rw [if_neg (by simp only [Bool.or_eq_true, decide_eq_true_eq]; omega)]
  · constructor
    · intro h
      cases hs : str_to_uint16 n with
      | none => simp [parse_delay_arg, hs] at h
      | some v =>
          simp only [parse_delay_arg, hs] at h
          rw [str_to_uint16_eq_some_iff] at hs
          split_ifs at h with hg
          omega
    · intro h
      have hs : str_to_uint16 n = some n.toNat := by
        rw [str_to_uint16_eq_some_iff]; omega
      simp only [parse_delay_arg, hs]
      rw [if_neg (by omega)]
  · intro h
    exact ⟨by simp [parse_rate_arg, h], by simp [parse_delay_arg, h]⟩
  · intro v hs hv
    simp only [parse_rate_arg, hs]
    rw [if_pos (by simp only [Bool.or_eq_true, decide_eq_true_eq]; omega)]
  · intro v hs hv
    simp only [parse_delay_arg, hs]
    rw [if_pos (by omega)]

/-- Concrete instance of C8 at the boundary values 1000 (accepted rate) —
instantiating the characterisation — together with its failure modes at
2000 (range error) and 70000 (parse failure). -/
theorem cli_argument_validation_witness :
    parse_rate_arg 1000 = ArgOutcome.ok 1000 ∧
    parse_rate_arg 2000 = ArgOutcome.range_error EXIT_FAILURE ∧
    parse_rate_arg 70000 = ArgOutcome.usage EXIT_FAILURE :=
  ⟨(cli_argument_validation 1000).1.mpr (by decide),
   (cli_argument_validation 2000).2.2.2.2.1 2000 (by decide) (by decide),
   ((cli_argument_validation 70000).2.2.2.1 (by decide)).1⟩

/-! ## C10: unknown option characters are ignored -/

/-- An option matched by one of the four cases of `main`'s switch. -/
def isKnownOpt : CliOpt → Bool
  | CliOpt.unknown _ => false
  | _ => true

/-- C10: an option character other than `h`, `V`, `r`, `d` matches no case
of the switch, so the loop takes no action for it and does not exit: the
option loop behaves exactly as if the unknown options were absent, and a
command line consisting only of unknown options falls through to the
connection phase with the current rate and delay. -/
theorem unknown_options_ignored :
    (∀ opts rate delay,
      getopt_loop opts rate delay
        = getopt_loop (opts.filter isKnownOpt) rate delay) ∧
    (∀ c rate delay,
      getopt_loop [CliOpt.unknown c] rate delay
        = CliResult.proceed rate delay) := by
  constructor
  · intro opts
    induction opts with
    | nil => intro rate delay; rfl
    | cons o rest ih =>
        intro rate delay
        cases o with
        | h => simp [getopt_loop, isKnownOpt]
        | V => simp [getopt_loop, isKnownOpt]
        | r a =>
            simp only [List.filter, isKnownOpt, getopt_loop]
            cases parse_rate_arg a <;> simp [getopt_loop, ih]
        | d a =>
            simp only [List.filter, isKnownOpt, getopt_loop]
            cases parse_delay_arg a <;> simp [getopt_loop, ih]
        | unknown c =>
            simp only [List.filter, isKnownOpt, getopt_loop]
            exact ih rate delay
  · intro c rate delay; rfl

/-! ## Trace lemmas for the daemon body -/

/-- Lemma: `takeWhile` passes over a prefix whose elements all satisfy the
predicate. -/
lemma takeWhile_append_all (p : Action → Bool) (l1 l2 : List Action)
    (h : ∀ a ∈ l1, p a = true) :
    (l1 ++ l2).takeWhile p = l1 ++ l2.takeWhile p := by
  induction l1 with
  | nil => simp
  | cons a t ih =>
      have ha : p a = true := h a (by simp)
      simp only [List.cons_append, List.takeWhile_cons, ha, if_true]
      rw [ih fun b hb => h b (by simp [hb])]

/-- Under `startup_ok` the daemon's run is the startup prefix, the one
startup applicator invocation, the event loop, and the final flush and
disconnect, exiting successfully. -/
lemma runDaemon_startup_ok (rate delay : Nat) (env : Env)
    (h : startup_ok env) :
    runDaemon rate delay env =
      (startup_actions
        ++ (set_repeat_rate_and_delay (env.set_controls_error 0) rate delay).1
        ++ mainLoop (xinput_reply env) env.set_controls_error rate delay 1
            env.events
        ++ [Action.flush, Action.disconnect], EXIT_SUCCESS) := by
  obtain ⟨h1, h2, h3, h4, h5⟩ := h
  unfold runDaemon
  rw [h1, h2, h3, h4, h5]
  rfl

/-- Every run of the event loop begins by blocking in
`xcb_wait_for_event`. -/
lemma mainLoop_head (xinput_info : xcb_query_extension_reply_t)
    (errf : Nat → Option Nat) (rate delay k : Nat)
    (events : List xcb_generic_event_t) :
    ∃ t, mainLoop xinput_info errf rate delay k events
      = Action.waitEvent :: t := by
  cases events with
  | nil => exact ⟨[], rfl⟩
  | cons e rest =>
      unfold mainLoop
      split
      · exact ⟨_, rfl⟩
      · exact ⟨_, rfl⟩

/-- Every run of the event loop ends with the blocking wait that returned
the NULL sentinel. -/
lemma mainLoop_ends (xinput_info : xcb_query_extension_reply_t)
    (errf : Nat → Option Nat) (rate delay : Nat) :
    ∀ (events : List xcb_generic_event_t) (k : Nat),
      ∃ p, mainLoop xinput_info errf rate delay k events
        = p ++ [Action.waitEvent] := by
  intro events
  induction events with
  | nil => exact fun k => ⟨[], rfl⟩
  | cons e rest ih =>
      intro k
      unfold mainLoop
      split
      · obtain ⟨p, hp⟩ := ih (k + 1)
        refine ⟨Action.waitEvent ::
          ((set_repeat_rate_and_delay (errf k) rate delay).1 ++ p), ?_⟩
        rw [hp]
        simp
      · obtain ⟨p, hp⟩ := ih k
        exact ⟨Action.waitEvent :: p, by rw [hp]; simp⟩

/-- The event loop blocks exactly once per delivered event plus once for
the NULL return. -/
lemma mainLoop_wait_count (xinput_info : xcb_query_extension_reply_t)
    (errf : Nat → Option Nat) (rate delay : Nat) :
    ∀ (events : List xcb_generic_event_t) (k : Nat),
      (mainLoop xinput_info errf rate delay k events).countP isWaitEvent
        = events.length + 1 := by
  intro events
  induction events with
  | nil => intro k; rfl
  | cons e rest ih =>
      intro k
      unfold mainLoop
      split
      · have h0 : ((set_repeat_rate_and_delay (errf k) rate delay).1).countP
            isWaitEvent = 0 := by
          refine List.countP_eq_zero.mpr fun a ha => ?_
          simp [apply_trace_no_wait (errf k) rate delay a ha]
        rw [List.countP_cons_of_pos _ _ (by rfl), List.countP_append, h0,
          ih (k + 1)]
        simp [Nat.add_comm]
      · rw [List.countP_cons_of_pos _ _ (by rfl), ih k]
        simp [Nat.add_comm]

/-- The event loop invokes the applicator exactly once per qualifying
hierarchy event, whatever the server answers. -/
lemma mainLoop_apply_count (xinput_info : xcb_query_extension_reply_t)
    (errf : Nat → Option Nat) (rate delay : Nat) :
    ∀ (events : List xcb_generic_event_t) (k : Nat),
      (mainLoop xinput_info errf rate delay k events).countP isApplyCall
        = events.countP (fun e => is_hierarchy_event e xinput_info) := by
  intro events
  induction events with
  | nil => intro k; rfl
  | cons e rest ih =>
      intro k
      unfold mainLoop
      by_cases he : is_hierarchy_event e xinput_info
      · rw [if_pos he, List.countP_cons_of_neg _ _ (by simp [isApplyCall]),
          List.countP_append, apply_trace_applyCall_count, ih (k + 1),
          List.countP_cons_of_pos _ _ (by simpa using he)]
        omega
      · rw [if_neg he, List.countP_cons_of_neg _ _ (by simp [isApplyCall]),
          ih k, List.countP_cons_of_neg _ _ (by simpa using he)]

/-- A concrete healthy environment: connection fine, both extensions
present (XInput at opcode 2), handshake succeeds, every set-controls
request succeeds, no events delivered. -/
def env0 : Env where
  connect_has_error := false
  xinput_present := true
  xinput_major_opcode := 2
  xkb_present := true
  screen_ok := true
  use_extension_error := none
  set_controls_error := fun _ => none
  events := []

/-- A hierarchy-changed event (slave added) for XInput at opcode 2. -/
def hierarchy_event_ex : xcb_generic_event_t where
  response_type := 35
  extension := 2
  event_type := 11
  flags := 4

/-- A concrete environment in which every set-controls request is answered
with protocol error 3 and one qualifying hierarchy event is delivered. -/
def env1 : Env where
  connect_has_error := false
  xinput_present := true
  xinput_major_opcode := 2
  xkb_present := true
  screen_ok := true
  use_extension_error := none
  set_controls_error := fun _ => some 3
  events := [hierarchy_event_ex]

/-! ## C4: no control request before the use-extension handshake -/

/-- C4: in every run, a set-controls request at position `i` of the trace
implies the use-extension handshake completed without a protocol error and
the handshake itself sits at an earlier position `j < i`. -/
theorem no_set_controls_before_handshake (rate delay : Nat) (env : Env)
    (i : Nat) (req : xcb_xkb_set_controls_request_t)
    (h : (runDaemon rate delay env).1[i]? = some (Action.setControls req)) :
    env.use_extension_error = none ∧
    ∃ j, j < i ∧ (runDaemon rate delay env).1[j]?
        = some (Action.useExtension XCB_XKB_MAJOR_VERSION
                  XCB_XKB_MINOR_VERSION) := by
  unfold runDaemon at h ⊢
  split_ifs at h ⊢ with h1 h2 h3 h4
  · have := List.getElem?_mem h
    simp at this
  · have := List.getElem?_mem h
    simp at this
  · have := List.getElem?_mem h
    simp at this
  · have := List.getElem?_mem h
    simp at this
  · cases h5 : env.use_extension_error with
    | some c =>
        rw [h5] at h
        have := List.getElem?_mem h
        simp [startup_actions] at this
    | none =>
        rw [h5] at h
        refine ⟨rfl, 5, ?_, ?_⟩
        · rcases i with _ | _ | _ | _ | _ | _ | i
          · simp [startup_actions, List.append_assoc] at h
          · simp [startup_actions, List.append_assoc] at h
          · simp [startup_actions, List.append_assoc] at h
          · simp [startup_actions, List.append_assoc] at h
          · simp [startup_actions, List.append_assoc] at h
          · simp [startup_actions, List.append_assoc] at h
          · omega
        · simp [startup_actions, List.append_assoc]

/-- Concrete instance of C4: in a default run with no events, the first
set-controls request sits at index 7, after the handshake. -/
theorem no_set_controls_before_handshake_witness :
    env0.use_extension_error = none ∧
    ∃ j, j < 7 ∧ (runDaemon 70 250 env0).1[j]?
        = some (Action.useExtension XCB_XKB_MAJOR_VERSION
                  XCB_XKB_MINOR_VERSION) :=
  no_set_controls_before_handshake 70 250 env0 7
    (mk_set_controls_request 250 14) (by rfl)

/-! ## C5: the loop exits only on the NULL sentinel, then flush,
disconnect, exit 0 -/

/-- C5: in every run that completes startup, the process exits with
`EXIT_SUCCESS`, its trace ends with the blocking wait that returned the
NULL sentinel followed immediately by the final flush and disconnect, and
the loop blocks exactly once per delivered event plus once for the NULL
return — every delivered event is processed; nothing else leaves the
loop. -/
theorem loop_exit_only_on_null (rate delay : Nat) (env : Env)
    (h : startup_ok env) :
    (runDaemon rate delay env).2 = EXIT_SUCCESS ∧
    (∃ pre, (runDaemon rate delay env).1
        = pre ++ [Action.waitEvent, Action.flush, Action.disconnect]) ∧
    (runDaemon rate delay env).1.countP isWaitEvent
        = env.events.length + 1 := by
  rw [runDaemon_startup_ok rate delay env h]
  refine ⟨rfl, ?_, ?_⟩
  · obtain ⟨p, hp⟩ := mainLoop_ends (xinput_reply env) env.set_controls_error
      rate delay env.events 1
    refine ⟨startup_actions
      ++ (set_repeat_rate_and_delay (env.set_controls_error 0) rate delay).1
      ++ p, ?_⟩
    rw [hp]
    simp [List.append_assoc]
  · have h0 : ((set_repeat_rate_and_delay (env.set_controls_error 0) rate
        delay).1).countP isWaitEvent = 0 :=
      List.countP_eq_zero.mpr fun a ha => by
        simp [apply_trace_no_wait (env.set_controls_error 0) rate delay a ha]
    have hsp : startup_actions.countP isWaitEvent = 0 := rfl
    have htl : ([Action.flush, Action.disconnect]).countP isWaitEvent = 0 :=
      rfl
    simp only [List.countP_append, h0, hsp, htl, mainLoop_wait_count]
    omega

/-- Concrete instance of C5 on the default healthy environment. -/
theorem loop_exit_only_on_null_witness :
    (runDaemon 70 250 env0).2 = EXIT_SUCCESS ∧
    (∃ pre, (runDaemon 70 250 env0).1
        = pre ++ [Action.waitEvent, Action.flush, Action.disconnect]) ∧
    (runDaemon 70 250 env0).1.countP isWaitEvent
        = env0.events.length + 1 :=
  loop_exit_only_on_null 70 250 env0 ⟨rfl, rfl, rfl, rfl, rfl⟩

/-! ## C6: a failed set-controls request is logged and the loop
continues -/

/-- C6: a set-controls request answered with a protocol error makes the
applicator emit the diagnostic carrying the server-supplied error code and
return `false`; in a run that completes startup the error is logged to the
trace, yet the applicator is still invoked once per qualifying hierarchy
event on top of the startup invocation, the loop still blocks once per
event plus once for the NULL sentinel, and the process still exits with
`EXIT_SUCCESS` — an apply failure never terminates the process. -/
theorem apply_error_logged_loop_continues (rate delay : Nat) (env : Env)
    (h : startup_ok env) (h1 : 1 ≤ rate) (h2 : rate ≤ 1000) :
    (∀ code, set_repeat_rate_and_delay (some code) rate delay
        = ([Action.applyCall rate delay,
            Action.setControls (mk_set_controls_request delay (1000 / rate)),
            Action.errPrint code], false)) ∧
    (∀ code, env.set_controls_error 0 = some code →
      Action.errPrint code ∈ (runDaemon rate delay env).1) ∧
    (runDaemon rate delay env).1.countP isApplyCall
        = 1 + env.events.countP
            (fun e => is_hierarchy_event e (xinput_reply env)) ∧
    (runDaemon rate delay env).1.countP isWaitEvent
        = env.events.length + 1 ∧
    (runDaemon rate delay env).2 = EXIT_SUCCESS := by
  have happly : ∀ code, set_repeat_rate_and_delay (some code) rate delay
      = ([Action.applyCall rate delay,
          Action.setControls (mk_set_controls_request delay (1000 / rate)),
          Action.errPrint code], false) := by
    intro code
    unfold set_repeat_rate_and_delay
    rw [if_neg (by simp only [Bool.or_eq_true, decide_eq_true_eq]; omega)]
  refine ⟨happly, ?_, ?_, ?_, ?_⟩
  · intro code hc
    rw [runDaemon_startup_ok rate delay env h, hc, happly code]
    simp
  · rw [runDaemon_startup_ok rate delay env h]
    have hsp : startup_actions.countP isApplyCall = 0 := rfl
    have htl : ([Action.flush, Action.disconnect]).countP isApplyCall = 0 :=
      rfl
    simp only [List.countP_append, hsp, htl, mainLoop_apply_count,
      apply_trace_applyCall_count]
    omega
  · rw [runDaemon_startup_ok rate delay env h]
    have h0 : ((set_repeat_rate_and_delay (env.set_controls_error 0) rate
        delay).1).countP isWaitEvent = 0 :=
      List.countP_eq_zero.mpr fun a ha => by
        simp [apply_trace_no_wait (env.set_controls_error 0) rate delay a ha]
    have hsp : startup_actions.countP isWaitEvent = 0 := rfl
    have htl : ([Action.flush, Action.disconnect]).countP isWaitEvent = 0 :=
      rfl
    simp only [List.countP_append, h0, hsp, htl, mainLoop_wait_count]
    omega
  · rw [runDaemon_startup_ok rate delay env h]

/-- Concrete instance of C6: every request is answered with error 3, one
qualifying hierarchy event arrives, the diagnostic is in the trace, two
applicator invocations happen, and the process exits 0. -/
theorem apply_error_logged_loop_continues_witness :
    (∀ code, set_repeat_rate_and_delay (some code) 70 250
        = ([Action.applyCall 70 250,
            Action.setControls (mk_set_controls_request 250 (1000 / 70)),
            Action.errPrint code], false)) ∧
    (∀ code, env1.set_controls_error 0 = some code →
      Action.errPrint code ∈ (runDaemon 70 250 env1).1) ∧
    (runDaemon 70 250 env1).1.countP isApplyCall
        = 1 + env1.events.countP
            (fun e => is_hierarchy_event e (xinput_reply env1)) ∧
    (runDaemon 70 250 env1).1.countP isWaitEvent
        = env1.events.length + 1 ∧
    (runDaemon 70 250 env1).2 = EXIT_SUCCESS :=
  apply_error_logged_loop_continues 70 250 env1 ⟨rfl, rfl, rfl, rfl, rfl⟩
    (by decide) (by decide)

/-! ## C7: the applicator runs exactly once before the first blocking
wait -/

/-- C7: in every run that completes startup, the part of the trace before
the first blocking event wait contains exactly one applicator invocation,
and that invocation carries the configured rate and delay — independent of
which events (if any) later arrive. -/
theorem startup_apply_exactly_once (rate delay : Nat) (env : Env)
    (h : startup_ok env) :
    ((runDaemon rate delay env).1.takeWhile
        fun a => !isWaitEvent a).countP isApplyCall = 1 ∧
    Action.applyCall rate delay
      ∈ ((runDaemon rate delay env).1.takeWhile fun a => !isWaitEvent a) := by
  rw [runDaemon_startup_ok rate delay env h]
  obtain ⟨t, ht⟩ := mainLoop_head (xinput_reply env) env.set_controls_error
    rate delay 1 env.events
  have htw : ((startup_actions
      ++ (set_repeat_rate_and_delay (env.set_controls_error 0) rate delay).1
      ++ mainLoop (xinput_reply env) env.set_controls_error rate delay 1
          env.events
      ++ [Action.flush, Action.disconnect]).takeWhile
        fun a => !isWaitEvent a)
      = startup_actions
        ++ (set_repeat_rate_and_delay (env.set_controls_error 0) rate
            delay).1 := by
    have hall : ∀ a ∈ startup_actions
        ++ (set_repeat_rate_and_delay (env.set_controls_error 0) rate
            delay).1, (!isWaitEvent a) = true := by
      intro a ha
      rcases List.mem_append.mp ha with hsp | hap
      · simp only [startup_actions, List.mem_cons, List.not_mem_nil,
          or_false] at hsp
        rcases hsp with rfl | rfl | rfl | rfl | rfl | rfl <;> rfl
      · simp [apply_trace_no_wait (env.set_controls_error 0) rate delay a hap]
    rw [List.append_assoc, takeWhile_append_all _ _ _ hall, ht,
      List.cons_append, List.takeWhile_cons]
    simp [isWaitEvent]
  rw [htw]
  constructor
  · rw [List.countP_append, apply_trace_applyCall_count]
    rfl
  · obtain ⟨t2, ht2⟩ := apply_trace_head (env.set_controls_error 0) rate delay
    rw [ht2]
    simp

/-- Concrete instance of C7 on the default healthy environment. -/
theorem startup_apply_exactly_once_witness :
    ((runDaemon 70 250 env0).1.takeWhile
        fun a => !isWaitEvent a).countP isApplyCall = 1 ∧
    Action.applyCall 70 250
      ∈ ((runDaemon 70 250 env0).1.takeWhile fun a => !isWaitEvent a) :=
  startup_apply_exactly_once 70 250 env0 ⟨rfl, rfl, rfl, rfl, rfl⟩

end Wxkbd
